import Mathlib

/-!
Verification of the youtube-uploader core: the upload validator, the resumable
upload engine (chunked transfer with retry/backoff and progress reporting) and
the OAuth credential lifecycle manager, shallowly embedded from the Python
sources `youtube_client.py`, `oauth_manager.py` and `config.py`.  Python
exceptions are embedded as `Except`/`Option` results; the filesystem, the
provider's chunk stream and the google-auth library are passed in explicitly as
data so every definition is executable.
-/

set_option autoImplicit false

namespace config

/-- Python constant `config.MAX_FILE_SIZE = 256 * 1024 * 1024 * 1024` (config.py line 48). -/
def MAX_FILE_SIZE : Nat := 256 * 1024 * 1024 * 1024

/-- Python constant `config.SUPPORTED_VIDEO_FORMATS` (config.py lines 49-51). -/
def SUPPORTED_VIDEO_FORMATS : List String :=
  [".mp4", ".mov", ".avi", ".flv", ".wmv", ".webm", ".mkv", ".mpeg", ".mpg"]

/-- Python constant `config.MAX_RETRY_ATTEMPTS = 5` (config.py line 69). -/
def MAX_RETRY_ATTEMPTS : Nat := 5

/-- Python constant `config.RETRY_INITIAL_DELAY = 1.0` seconds (config.py line 70). -/
def RETRY_INITIAL_DELAY : ℚ := 1

/-- Python constant `config.RETRY_MAX_DELAY = 60.0` seconds (config.py line 71). -/
def RETRY_MAX_DELAY : ℚ := 60

/-- Python constant `config.RETRY_BACKOFF_MULTIPLIER = 1.5` (config.py line 72).
The float values 1.5 and its small powers are exactly representable, so the
rational model is exact. -/
def RETRY_BACKOFF_MULTIPLIER : ℚ := 3 / 2

/-- Python constant `config.UPLOAD_CHUNK_SIZE = 20 * 1024 * 1024` (config.py line 47). -/
def UPLOAD_CHUNK_SIZE : Nat := 20 * 1024 * 1024

end config

/-- Local view of the attributes of a path that the validator inspects: whether
it exists, whether it is a regular file, its extension (Python `Path.suffix`,
dot included), its byte size (`stat().st_size`), whether the current process
may read it (`os.access(..., R_OK)`), and its absolute path and base name.
The validator receives no channel other than these local attributes, so the
embedding gives it no way to perform network I/O. -/
structure FSFile where
  pathExists : Bool
  isFile : Bool
  suffix : String
  size : Nat
  readable : Bool
  absolutePath : String
  name : String
  deriving Repr, DecidableEq

/-- Python's `str.lower()` as applied to extension strings, modelled
character-wise with the ASCII lowering of `Char.toLower` so that it is
kernel-executable on concrete inputs. -/
def strToLower (s : String) : String := ⟨s.data.map Char.toLower⟩

/-- The five `FileValidationError` cases raised by `validate_video_file`
(youtube_client.py lines 102-126), in source order. -/
inductive FileValidationFail where
  | fileNotFound
  | notAFile
  | unsupportedFormat (suffix : String)
  | fileTooLarge (size : Nat)
  | notReadable
  deriving Repr, DecidableEq

/-- The dictionary returned by `validate_video_file` on success
(youtube_client.py lines 130-136). -/
structure FileInfo where
  valid : Bool
  file_path : String
  file_name : String
  file_size : Nat
  file_extension : String
  deriving Repr, DecidableEq

/-- Shallow embedding of `YouTubeClient.validate_video_file` (youtube_client.py
lines 86-136).  Each Python `raise FileValidationError` becomes an
`Except.error`; the checks appear in the source's order and short-circuit. -/
def validate_video_file (f : FSFile) : Except FileValidationFail FileInfo :=
  if ¬ f.pathExists then .error .fileNotFound
  else if ¬ f.isFile then .error .notAFile
  else if ¬ (strToLower f.suffix ∈ config.SUPPORTED_VIDEO_FORMATS) then
    .error (.unsupportedFormat f.suffix)
  else if f.size > config.MAX_FILE_SIZE then .error (.fileTooLarge f.size)
  else if ¬ f.readable then .error .notReadable
  else .ok { valid := true, file_path := f.absolutePath, file_name := f.name,
             file_size := f.size, file_extension := strToLower f.suffix }

/-- The validator as §4.3 of the spec words it: checks in the fixed order
existence, regular file, supported extension (case-insensitive), size within
the maximum, readability, short-circuiting with a `FileValidationError` on the
first failure; on success a descriptor carrying the absolute path, the base
name, the actual byte size on disk and the extension normalized to lowercase.
Stated separately from `validate_video_file` so that claim C7 can compare the
code against the spec's wording. -/
def validateSpec (f : FSFile) : Except FileValidationFail FileInfo :=
  if ¬ f.pathExists then .error .fileNotFound
  else if ¬ f.isFile then .error .notAFile
  else if strToLower f.suffix ∉ config.SUPPORTED_VIDEO_FORMATS then
    .error (.unsupportedFormat f.suffix)
  else if config.MAX_FILE_SIZE < f.size then .error (.fileTooLarge f.size)
  else if ¬ f.readable then .error .notReadable
  else .ok ⟨true, f.absolutePath, f.name, f.size, strToLower f.suffix⟩

/-- C7: `validate_video_file` performs its checks in the fixed order
existence, regular file, extension in the supported set (case-insensitively),
size within the maximum, readability, short-circuiting with a
`FileValidationError` on the first failure; it touches only local file
attributes (no network I/O is possible in the embedding), and on success the
returned descriptor's `file_size` is the actual byte length on disk, its path
is the absolute path, and its extension is lowercased — that is, the code
coincides with the spec-worded validator on every input. -/
theorem validate_video_file_matches_spec (f : FSFile) :
    validate_video_file f = validateSpec f := rfl

/-- Exceptions that a chunk send (`request.next_chunk()`) or the thumbnail call
can raise, distinguished the way the classifier `_parse_http_error`
(youtube_client.py lines 353-384) distinguishes them: a provider `HttpError`
carries a `reason` string (for example `"quotaExceeded"` or `"forbidden"`);
anything else is some other exception with a message. -/
inductive PyExn where
  | httpError (reason : String) (msg : String)
  | otherExn (msg : String)
  deriving Repr, DecidableEq

/-- Terminal payload of the resumable session: the provider's final response
body, from which `upload_video` reads the new remote identifier. -/
structure UploadResponse where
  id : String
  deriving Repr, DecidableEq

/-- Outcome of one call to `request.next_chunk()` as observed by the loop in
`_execute_upload_with_retry`: a non-`None` status whose `resumable_progress`
is the cumulative byte count, a terminal response, or a raised exception. -/
inductive ChunkOutcome where
  | progress (resumableProgress : Nat)
  | done (resp : UploadResponse)
  | fail (e : PyExn)
  deriving Repr, DecidableEq

/-- The retry configuration read from config.py by the upload engine. -/
structure RetryCfg where
  maxRetryAttempts : Nat
  retryInitialDelay : ℚ
  retryMaxDelay : ℚ
  retryBackoffMultiplier : ℚ
  deriving Repr, DecidableEq

/-- The concrete retry configuration of config.py lines 69-72. -/
def config.retryCfg : RetryCfg :=
  { maxRetryAttempts := config.MAX_RETRY_ATTEMPTS,
    retryInitialDelay := config.RETRY_INITIAL_DELAY,
    retryMaxDelay := config.RETRY_MAX_DELAY,
    retryBackoffMultiplier := config.RETRY_BACKOFF_MULTIPLIER }

/-- Observable actions of the engine, in the order they happen: a progress
callback invocation `progress_callback(bytes_uploaded, total_bytes)`, a
backoff sleep of the given duration in seconds, the raising of the terminal
exception, or the return of the terminal response. -/
inductive EngineEvent where
  | cb (bytesUploaded totalBytes : Nat)
  | slept (seconds : ℚ)
  | raised
  | returned
  deriving Repr, DecidableEq

/-- The `NetworkError` raise sites of `_execute_upload_with_retry`:
`networkAfterAttempts` is the raise at youtube_client.py line 315, whose
message `"Upload failed after {retry_count} attempts: {str(e)}"` carries the
number of attempts made and the last underlying cause, here kept as structured
fields; `networkExhausted` is the raise at line 328 after the outer `while`
exits, whose message carries only `str(last_exception)`. -/
inductive EngineErr where
  | networkAfterAttempts (attempts : Nat) (cause : PyExn)
  | networkExhausted (cause : Option PyExn)
  deriving Repr, DecidableEq

/-- The backoff delay computed at youtube_client.py lines 318-321 after the
`retryCount`-th failed attempt:
`min(RETRY_INITIAL_DELAY * RETRY_BACKOFF_MULTIPLIER ** (retry_count - 1), RETRY_MAX_DELAY)`. -/
def backoffDelay (cfg : RetryCfg) (retryCount : Nat) : ℚ :=
  min (cfg.retryInitialDelay * cfg.retryBackoffMultiplier ^ (retryCount - 1))
    cfg.retryMaxDelay

/-- Shallow embedding of the body of `_execute_upload_with_retry`
(youtube_client.py lines 288-327), the nested `while` loops driving
`request.next_chunk()`.  The successive outcomes of the chunk-send calls are
supplied as the `script` list; the second argument is the current value of
`retry_count`.  The result pairs the terminal exception or response with the
ordered list of observable events; `none` means the script was too short to
drive the upload to a terminal result. -/
def uploadLoop (cfg : RetryCfg) (totalBytes : Nat) :
    List ChunkOutcome → Nat → Option (Except EngineErr UploadResponse × List EngineEvent)
  | [], _ => none
  | .progress n :: rest, retryCount =>
    match uploadLoop cfg totalBytes rest retryCount with
    | none => none
    | some (res, evs) => some (res, .cb n totalBytes :: evs)
  | .done resp :: _, _ => some (.ok resp, [.returned])
  | .fail e :: rest, retryCount =>
    if cfg.maxRetryAttempts ≤ retryCount + 1 then
      some (.error (.networkAfterAttempts (retryCount + 1) e), [.raised])
    else
      match uploadLoop cfg totalBytes rest (retryCount + 1) with
      | none => none
      | some (res, evs) => some (res, .slept (backoffDelay cfg (retryCount + 1)) :: evs)

/-- Shallow embedding of `YouTubeClient._execute_upload_with_retry`
(youtube_client.py lines 265-328): the loop is entered with `retry_count = 0`;
if the entry guard `retry_count < MAX_RETRY_ATTEMPTS` fails at once (only
possible when the configured maximum is zero), the line-328
`NetworkError(f"Upload failed: {str(last_exception)}")` with
`last_exception = None` is raised instead. -/
def execute_upload_with_retry (cfg : RetryCfg) (totalBytes : Nat)
    (script : List ChunkOutcome) :
    Option (Except EngineErr UploadResponse × List EngineEvent) :=
  if 0 < cfg.maxRetryAttempts then uploadLoop cfg totalBytes script 0
  else some (.error (.networkExhausted none), [.raised])

/-- Unfolding equation of `uploadLoop` for an exhausted script. -/
theorem uploadLoop_nil (cfg : RetryCfg) (total r : Nat) :
    uploadLoop cfg total [] r = none := rfl

/-- Unfolding equation of `uploadLoop` for a progress status: the callback is
invoked with the cumulative byte count, then the inner loop continues. -/
theorem uploadLoop_progress_cons (cfg : RetryCfg) (total n : Nat)
    (rest : List ChunkOutcome) (r : Nat) :
    uploadLoop cfg total (.progress n :: rest) r =
      match uploadLoop cfg total rest r with
      | none => none
      | some (res, evs) => some (res, .cb n total :: evs) := rfl

/-- Unfolding equation of `uploadLoop` for the terminal response: the loop
returns at once, with no further observable event. -/
theorem uploadLoop_done_cons (cfg : RetryCfg) (total : Nat)
    (resp : UploadResponse) (rest : List ChunkOutcome) (r : Nat) :
    uploadLoop cfg total (.done resp :: rest) r = some (.ok resp, [.returned]) := rfl

/-- Unfolding equation of `uploadLoop` for a failed chunk send: the retry
counter is incremented; if it reaches the maximum the line-315 `NetworkError`
is raised, otherwise the backoff sleep happens and the same chunk is resent. -/
theorem uploadLoop_fail_cons (cfg : RetryCfg) (total : Nat) (e : PyExn)
    (rest : List ChunkOutcome) (r : Nat) :
    uploadLoop cfg total (.fail e :: rest) r =
      if cfg.maxRetryAttempts ≤ r + 1 then
        some (.error (.networkAfterAttempts (r + 1) e), [.raised])
      else
        match uploadLoop cfg total rest (r + 1) with
        | none => none
        | some (res, evs) => some (res, .slept (backoffDelay cfg (r + 1)) :: evs) := rfl

/-- Helper: a run of progress statuses prepends the corresponding callback
invocations to whatever the rest of the script produces (inner `while` of
youtube_client.py lines 294-305). -/
theorem uploadLoop_progress_append (cfg : RetryCfg) (total : Nat)
    (ps : List Nat) (rest : List ChunkOutcome) (r : Nat) :
    uploadLoop cfg total (ps.map .progress ++ rest) r =
      (uploadLoop cfg total rest r).map
        (fun x => (x.1, ps.map (fun n => EngineEvent.cb n total) ++ x.2)) := by
  induction ps with
  | nil =>
    simp only [List.map_nil, List.nil_append]
    cases h : uploadLoop cfg total rest r with
    | none => simp
    | some x => cases x; simp
  | cons p ps ih =>
    rw [List.map_cons, List.cons_append, uploadLoop_progress_cons, ih]
    cases h : uploadLoop cfg total rest r with
    | none => simp
    | some x => cases x; simp

/-- Helper: while retry budget remains, a run of failed chunk sends prepends
one backoff sleep per failure and continues with the retry counter advanced
(outer `while` of youtube_client.py lines 291-326, `except` branch). -/
theorem uploadLoop_fail_append (cfg : RetryCfg) (total : Nat)
    (es : List PyExn) (rest : List ChunkOutcome) (r : Nat)
    (h : r + es.length < cfg.maxRetryAttempts) :
    uploadLoop cfg total (es.map .fail ++ rest) r =
      (uploadLoop cfg total rest (r + es.length)).map
        (fun x => (x.1,
          (List.range es.length).map
            (fun i => EngineEvent.slept (backoffDelay cfg (r + i + 1))) ++ x.2)) := by
  induction es generalizing r with
  | nil =>
    simp only [List.map_nil, List.nil_append, List.length_nil, Nat.add_zero,
      List.range_zero]
    cases hrest : uploadLoop cfg total rest r with
    | none => simp
    | some x => cases x; simp
  | cons e es ih =>
    rw [List.length_cons] at h
    have h1 : ¬ cfg.maxRetryAttempts ≤ r + 1 := by omega
    have h2 : r + 1 + es.length < cfg.maxRetryAttempts := by omega
    have harg : r + (e :: es).length = r + 1 + es.length := by
      rw [List.length_cons]; omega
    rw [List.map_cons, List.cons_append, uploadLoop_fail_cons, if_neg h1,
      ih (r + 1) h2, harg]
    have hrange : (List.range (e :: es).length).map
        (fun i => EngineEvent.slept (backoffDelay cfg (r + i + 1))) =
        EngineEvent.slept (backoffDelay cfg (r + 1)) ::
          (List.range es.length).map
            (fun i => EngineEvent.slept (backoffDelay cfg (r + 1 + i + 1))) := by
      rw [List.length_cons, List.range_succ_eq_map, List.map_cons, List.map_map]
      refine congrArg₂ _ (by simp) ?_
      refine List.map_congr_left (fun i _ => ?_)
      simp only [Function.comp_apply]
      have hshift : r + (i + 1) + 1 = r + 1 + i + 1 := by omega
      rw [hshift]
    rw [hrange]
    cases hrest : uploadLoop cfg total rest (r + 1 + es.length) with
    | none => simp
    | some x => cases x; simp

/-- Helper: the default-carrying last element shifts through a cons. -/
theorem getLastD_cons_shift {α : Type} (a b : α) (l : List α) :
    (b :: l).getLastD a = l.getLastD b := by
  cases l <;> simp [List.getLastD, List.getLast_cons]

/-- Helper: when the failures use up the whole retry budget, the engine raises
the line-315 `NetworkError` carrying the attempt count and the last cause,
after one backoff sleep per non-final failure. -/
theorem uploadLoop_fail_exhaust (cfg : RetryCfg) (total : Nat)
    (e : PyExn) (es : List PyExn) (rest : List ChunkOutcome) (r : Nat)
    (h : r + es.length + 1 = cfg.maxRetryAttempts) :
    uploadLoop cfg total ((e :: es).map .fail ++ rest) r =
      some (.error (.networkAfterAttempts cfg.maxRetryAttempts (es.getLastD e)),
        (List.range es.length).map
          (fun i => EngineEvent.slept (backoffDelay cfg (r + i + 1))) ++ [.raised]) := by
  induction es generalizing r e with
  | nil =>
    rw [List.length_nil] at h
    have h1 : cfg.maxRetryAttempts ≤ r + 1 := by omega
    rw [List.map_cons, List.map_nil, List.cons_append, List.nil_append,
      uploadLoop_fail_cons, if_pos h1]
    have h2 : r + 1 = cfg.maxRetryAttempts := by omega
    simp [h2, List.getLastD]
  | cons e2 es ih =>
    rw [List.length_cons] at h
    have h1 : ¬ cfg.maxRetryAttempts ≤ r + 1 := by omega
    have h2 : (r + 1) + es.length + 1 = cfg.maxRetryAttempts := by omega
    rw [List.map_cons, List.cons_append, uploadLoop_fail_cons, if_neg h1]
    rw [ih e2 (r + 1) h2]
    have hrange : (List.range (e2 :: es).length).map
        (fun i => EngineEvent.slept (backoffDelay cfg (r + i + 1))) =
        EngineEvent.slept (backoffDelay cfg (r + 1)) ::
          (List.range es.length).map
            (fun i => EngineEvent.slept (backoffDelay cfg (r + 1 + i + 1))) := by
      rw [List.length_cons, List.range_succ_eq_map, List.map_cons, List.map_map]
      refine congrArg₂ _ (by simp) ?_
      refine List.map_congr_left (fun i _ => ?_)
      simp only [Function.comp_apply]
      have hshift : r + (i + 1) + 1 = r + 1 + i + 1 := by omega
      rw [hshift]
    rw [hrange, getLastD_cons_shift]
    simp

/-- C5: if the chunk send fails transiently exactly `k` times (`k` below the
configured maximum retry count) and then succeeds, the engine completes
successfully after exactly `k + 1` attempts — the trace holds exactly the `k`
backoff sleeps followed by the terminal return — and the delay waited before
the `i`-th resend (the sleep at 0-based trace index `i - 1`) equals
`min(initial_delay * backoff_multiplier ^ (i - 1), max_delay)`; with a
multiplier of at least one and a nonnegative initial delay these delays are
non-decreasing up to the configured ceiling. -/
theorem retry_then_success_backoff (cfg : RetryCfg) (total : Nat)
    (es : List PyExn) (resp : UploadResponse) (rest : List ChunkOutcome)
    (hk : es.length < cfg.maxRetryAttempts)
    (hm : 1 ≤ cfg.retryBackoffMultiplier) (hd : 0 ≤ cfg.retryInitialDelay) :
    execute_upload_with_retry cfg total (es.map .fail ++ (.done resp :: rest)) =
      some (.ok resp,
        (List.range es.length).map
          (fun i => EngineEvent.slept
            (min (cfg.retryInitialDelay * cfg.retryBackoffMultiplier ^ i)
              cfg.retryMaxDelay)) ++ [.returned])
    ∧ ∀ i j : Nat, i ≤ j →
        min (cfg.retryInitialDelay * cfg.retryBackoffMultiplier ^ i)
            cfg.retryMaxDelay ≤
          min (cfg.retryInitialDelay * cfg.retryBackoffMultiplier ^ j)
            cfg.retryMaxDelay := by
  constructor
  · have h0 : 0 < cfg.maxRetryAttempts := Nat.lt_of_le_of_lt (Nat.zero_le _) hk
    simp only [execute_upload_with_retry]
    rw [if_pos h0,
      uploadLoop_fail_append cfg total es (.done resp :: rest) 0 (by omega),
      uploadLoop_done_cons]
    simp [backoffDelay]
  · intro i j hij
    exact min_le_min (mul_le_mul_of_nonneg_left (pow_le_pow_right₀ hm hij) hd) le_rfl

/-- C5 witness: a concrete run under the repository's configuration with three
transient failures then success: four attempts, sleeps 1 s, 1.5 s, 2.25 s. -/
theorem retry_then_success_backoff_witness :
    execute_upload_with_retry config.retryCfg 100
        ([PyExn.otherExn "timeout", PyExn.otherExn "reset",
          PyExn.otherExn "timeout"].map .fail ++ (.done ⟨"vid123"⟩ :: [])) =
      some (.ok ⟨"vid123"⟩,
        (List.range
          [PyExn.otherExn "timeout", PyExn.otherExn "reset",
            PyExn.otherExn "timeout"].length).map
          (fun i => EngineEvent.slept
            (min (config.retryCfg.retryInitialDelay *
                config.retryCfg.retryBackoffMultiplier ^ i)
              config.retryCfg.retryMaxDelay)) ++ [.returned])
    ∧ min (config.retryCfg.retryInitialDelay *
          config.retryCfg.retryBackoffMultiplier ^ 0) config.retryCfg.retryMaxDelay ≤
        min (config.retryCfg.retryInitialDelay *
          config.retryCfg.retryBackoffMultiplier ^ 2) config.retryCfg.retryMaxDelay :=
  ⟨(retry_then_success_backoff config.retryCfg 100
      [PyExn.otherExn "timeout", PyExn.otherExn "reset", PyExn.otherExn "timeout"]
      ⟨"vid123"⟩ [] (by decide)
      (by norm_num [config.retryCfg, config.RETRY_BACKOFF_MULTIPLIER])
      (by norm_num [config.retryCfg, config.RETRY_INITIAL_DELAY])).1,
    (retry_then_success_backoff config.retryCfg 100
      [PyExn.otherExn "timeout", PyExn.otherExn "reset", PyExn.otherExn "timeout"]
      ⟨"vid123"⟩ [] (by decide)
      (by norm_num [config.retryCfg, config.RETRY_BACKOFF_MULTIPLIER])
      (by norm_num [config.retryCfg, config.RETRY_INITIAL_DELAY])).2 0 2 (by omega)⟩

/-- C6: when every chunk-send attempt fails transiently,
`_execute_upload_with_retry` raises `NetworkError` after exactly the
configured maximum number of attempts: the raise happens on the `MAX`-th
failure after `MAX - 1` backoff sleeps, any outcomes scripted beyond the
`MAX`-th failure are never consumed (no more attempts), and the raised error
carries the number of attempts made (`MAX`) and the last underlying cause. -/
theorem retry_exhaustion_network_error (cfg : RetryCfg) (total : Nat)
    (e : PyExn) (es : List PyExn) (rest : List ChunkOutcome)
    (h : es.length + 1 = cfg.maxRetryAttempts) :
    execute_upload_with_retry cfg total ((e :: es).map .fail ++ rest) =
      some (.error (.networkAfterAttempts cfg.maxRetryAttempts (es.getLastD e)),
        (List.range es.length).map
          (fun i => EngineEvent.slept (backoffDelay cfg (i + 1))) ++ [.raised]) := by
  have h0 : 0 < cfg.maxRetryAttempts := by omega
  simp only [execute_upload_with_retry]
  rw [if_pos h0, uploadLoop_fail_exhaust cfg total e es rest 0 (by omega)]
  simp

/-- C6 witness: a concrete run under the repository's configuration in which
all five attempts fail; the sixth scripted outcome is never consumed, the
error carries attempts = 5 and the fifth (last) cause, and four sleeps
precede the raise. -/
theorem retry_exhaustion_network_error_witness :
    execute_upload_with_retry config.retryCfg 100
        ((PyExn.otherExn "t1" ::
          [PyExn.otherExn "t2", PyExn.otherExn "t3", PyExn.otherExn "t4",
            PyExn.otherExn "t5"]).map .fail ++ [.done ⟨"never"⟩]) =
      some (.error (.networkAfterAttempts config.retryCfg.maxRetryAttempts
          ([PyExn.otherExn "t2", PyExn.otherExn "t3", PyExn.otherExn "t4",
            PyExn.otherExn "t5"].getLastD (PyExn.otherExn "t1"))),
        (List.range
          [PyExn.otherExn "t2", PyExn.otherExn "t3", PyExn.otherExn "t4",
            PyExn.otherExn "t5"].length).map
          (fun i => EngineEvent.slept (backoffDelay config.retryCfg (i + 1)))
          ++ [.raised]) :=
  retry_exhaustion_network_error config.retryCfg 100 (PyExn.otherExn "t1")
    [PyExn.otherExn "t2", PyExn.otherExn "t3", PyExn.otherExn "t4",
      PyExn.otherExn "t5"] [.done ⟨"never"⟩] (by decide)

/-- The quota-exhaustion provider error of §7, exactly as `_parse_http_error`
(youtube_client.py line 372) recognizes it: an `HttpError` whose `reason` is
`"quotaExceeded"`. -/
def quotaExn : PyExn := .httpError "quotaExceeded" "Quota exceeded"

/-- C2 counterexample: a chunk send failing with the non-retryable
quota-exhaustion provider error is NOT aborted immediately: the engine
consumes one unit of retry budget, sleeps the 1-second backoff, resends, and
the upload then completes — no `QuotaExceededError` (nor any classified
error) is ever raised for it. -/
theorem quota_retried_counterexample :
    execute_upload_with_retry config.retryCfg 100
        [.fail quotaExn, .done ⟨"abc"⟩] =
      some (.ok ⟨"abc"⟩, [.slept 1, .returned]) := by
  have hb : backoffDelay config.retryCfg (0 + 1) = 1 := by
    rw [backoffDelay, min_def]
    norm_num [config.retryCfg, config.RETRY_INITIAL_DELAY,
      config.RETRY_BACKOFF_MULTIPLIER, config.RETRY_MAX_DELAY]
  simp only [execute_upload_with_retry]
  rw [if_pos (by decide), show [ChunkOutcome.fail quotaExn, ChunkOutcome.done ⟨"abc"⟩] =
      ChunkOutcome.fail quotaExn :: [ChunkOutcome.done ⟨"abc"⟩] from rfl,
    uploadLoop_fail_cons, if_neg (by decide), uploadLoop_done_cons, hb]

/-- C2 amended: inside the chunk-send retry loop no classification happens.
Every chunk-send failure — the non-retryable provider errors (quota
exhaustion, permission denial) included — is treated like a transient one:
while budget remains it consumes one retry and incurs the backoff sleep
before the same chunk is resent, and when the budget is exhausted the loop
raises `NetworkError` whatever the error's kind; the
`QuotaExceededError`/`UploadError` classification in `upload_video` applies
only to `HttpError`s raised outside this loop, which the chunk-send
exceptions never reach. -/
theorem chunk_failures_uniformly_retried (cfg : RetryCfg) (total : Nat)
    (e : PyExn) (rest : List ChunkOutcome) (r : Nat) :
    (r + 1 < cfg.maxRetryAttempts →
      uploadLoop cfg total (.fail e :: rest) r =
        (uploadLoop cfg total rest (r + 1)).map
          (fun x => (x.1, .slept (backoffDelay cfg (r + 1)) :: x.2)))
    ∧ (cfg.maxRetryAttempts ≤ r + 1 →
      uploadLoop cfg total (.fail e :: rest) r =
        some (.error (.networkAfterAttempts (r + 1) e), [.raised])) := by
  constructor
  · intro h
    rw [uploadLoop_fail_cons, if_neg (by omega)]
    cases hrest : uploadLoop cfg total rest (r + 1) with
    | none => simp
    | some x => cases x; simp
  · intro h
    rw [uploadLoop_fail_cons, if_pos h]

/-- C2 amended witness: under the repository's configuration the quota error
is retried (with the backoff sleep) at retry count 0, and at retry count 4 the
fifth failure raises `NetworkError`, never `QuotaExceededError`. -/
theorem chunk_failures_uniformly_retried_witness :
    (uploadLoop config.retryCfg 50 (.fail quotaExn :: [.done ⟨"w"⟩]) 0 =
      (uploadLoop config.retryCfg 50 [.done ⟨"w"⟩] (0 + 1)).map
        (fun x => (x.1, .slept (backoffDelay config.retryCfg (0 + 1)) :: x.2)))
    ∧ (uploadLoop config.retryCfg 50 (.fail quotaExn :: []) 4 =
      some (.error (.networkAfterAttempts (4 + 1) quotaExn), [.raised])) :=
  ⟨(chunk_failures_uniformly_retried config.retryCfg 50 quotaExn
      [.done ⟨"w"⟩] 0).1 (by decide),
    (chunk_failures_uniformly_retried config.retryCfg 50 quotaExn [] 4).2 (by decide)⟩

/-- Modelled from the spec: the cumulative `resumable_progress` values the
simulated provider reports during a clean upload of `totalBytes` bytes sent in
`chunkSize`-byte chunks — after the `i`-th chunk (0-based),
`min((i + 1) * chunkSize, totalBytes)` bytes are acknowledged, as in §8's
end-to-end scenario (a 25 MB file in 5 MB chunks yields the cumulative counts
`{5MB, 10MB, 15MB, 20MB, 25MB}`).  The provider library
(`MediaFileUpload` / `next_chunk`) is external to this repository, so its
clean-run chunk stream is taken from the spec's simulated upload. -/
def cleanProgress (chunkSize totalBytes : Nat) : List Nat :=
  (List.range ((totalBytes + chunkSize - 1) / chunkSize)).map
    (fun i => min ((i + 1) * chunkSize) totalBytes)

/-- Modelled from the spec: the chunk-outcome script of a clean simulated
upload — one progress status per chunk, then the terminal response, with no
failures injected. -/
def cleanScript (chunkSize totalBytes : Nat) (resp : UploadResponse) :
    List ChunkOutcome :=
  (cleanProgress chunkSize totalBytes).map .progress ++ [.done resp]

/-- Helper: the last entry of a mapped `List.range (n + 1)`. -/
theorem getLast?_map_range (f : Nat → Nat) (n : Nat) :
    ((List.range (n + 1)).map f).getLast? = some (f n) := by
  rw [List.range_succ, List.map_append, List.map_cons, List.map_nil,
    List.getLast?_concat]

/-- Helper: mapping a step-monotone function over `List.range` yields a
non-decreasing list. -/
theorem chain_le_map_range (f : Nat → Nat) (hf : ∀ i, f i ≤ f (i + 1)) :
    ∀ N : Nat, List.Chain' (· ≤ ·) ((List.range N).map f) := by
  intro N
  induction N with
  | zero => simp
  | succ n ih =>
    rw [List.range_succ, List.map_append, List.map_cons, List.map_nil]
    refine List.Chain'.append ih (List.chain'_singleton _) ?_
    intro x hx y hy
    cases n with
    | zero => simp at hx
    | succ m =>
      rw [getLast?_map_range] at hx
      simp only [List.head?_cons, Option.mem_def, Option.some.injEq] at hx hy
      subst hx; subst hy
      exact hf m

/-- C1: across a full simulated upload of a file split into chunks, the
engine's event trace is exactly the progress-callback invocations carrying the
cumulative byte counts, followed by the terminal return — in particular no
callback invocation occurs after the terminal result is produced — and the
sequence of `bytes_transferred` values passed to the callback is monotonically
non-decreasing, its final value equal to the total file size. -/
theorem progress_monotone_final_total (cfg : RetryCfg)
    (chunkSize totalBytes : Nat) (resp : UploadResponse)
    (hc : 0 < chunkSize) (ht : 0 < totalBytes)
    (hmax : 0 < cfg.maxRetryAttempts) :
    execute_upload_with_retry cfg totalBytes
        (cleanScript chunkSize totalBytes resp) =
      some (.ok resp,
        (cleanProgress chunkSize totalBytes).map
          (fun n => EngineEvent.cb n totalBytes) ++ [.returned])
    ∧ List.Chain' (· ≤ ·) (cleanProgress chunkSize totalBytes)
    ∧ (cleanProgress chunkSize totalBytes).getLast? = some totalBytes := by
  refine ⟨?_, ?_, ?_⟩
  · simp only [execute_upload_with_retry, cleanScript]
    rw [if_pos hmax, uploadLoop_progress_append, uploadLoop_done_cons]
    simp [cleanProgress]
  · exact chain_le_map_range _
      (fun i => min_le_min (Nat.mul_le_mul_right _ (by omega)) le_rfl) _
  · have hN : 1 ≤ (totalBytes + chunkSize - 1) / chunkSize := by
      rw [Nat.le_div_iff_mul_le hc]; omega
    have hTN : totalBytes ≤ ((totalBytes + chunkSize - 1) / chunkSize) * chunkSize := by
      have hdm := Nat.div_add_mod' (totalBytes + chunkSize - 1) chunkSize
      have hmod := Nat.mod_lt (totalBytes + chunkSize - 1) hc
      omega
    obtain ⟨M, hM⟩ := Nat.exists_eq_add_of_le' hN
    rw [cleanProgress, hM, getLast?_map_range]
    rw [hM] at hTN
    exact congrArg some (min_eq_right hTN)

/-- C1 witness: a 23-byte file in 5-byte chunks under the repository's
configuration — five callbacks with the cumulative counts 5, 10, 15, 20, 23,
all before the terminal return, non-decreasing, ending at the total size. -/
theorem progress_monotone_final_total_witness :
    execute_upload_with_retry config.retryCfg 23 (cleanScript 5 23 ⟨"endid"⟩) =
      some (.ok ⟨"endid"⟩,
        (cleanProgress 5 23).map (fun n => EngineEvent.cb n 23) ++ [.returned])
    ∧ List.Chain' (· ≤ ·) (cleanProgress 5 23)
    ∧ (cleanProgress 5 23).getLast? = some 23 :=
  progress_monotone_final_total config.retryCfg 5 23 ⟨"endid"⟩
    (by decide) (by decide) (by decide)

/-- The metadata dictionary handed to `upload_video` (youtube_client.py lines
138-201): each key may be absent (`none`) or present, mirroring Python's
`dict.get` with its default.  A present-but-blank title is `some ""` or
`some "   "`, distinct from an absent key `none`.  Recording dates model the
already-parsed ISO-8601 timestamp. -/
structure Metadata where
  title : Option String
  description : Option String
  tags : Option (List String)
  category : Option String
  privacy_status : Option String
  video_language : Option String
  recording_date : Option String
  thumbnail : Option String
  deriving Repr, DecidableEq

/-- The `language_map` dictionary of `_get_language_code` (youtube_client.py
lines 340-350). -/
def language_map : List (String × String) :=
  [("English", "en"), ("Thai", "th"), ("Spanish", "es"), ("French", "fr"),
   ("German", "de"), ("Japanese", "ja"), ("Korean", "ko"), ("Chinese", "zh"),
   ("Other", "en")]

/-- Shallow embedding of `YouTubeClient._get_language_code` (youtube_client.py
lines 330-351): `language_map.get(language_name, 'en')`. -/
def get_language_code (language_name : String) : String :=
  (language_map.lookup language_name).getD "en"

/-- The `snippet` part of the provider request body (youtube_client.py lines
167-173). -/
structure Snippet where
  title : String
  description : String
  tags : List String
  categoryId : String
  defaultAudioLanguage : String
  deriving Repr, DecidableEq

/-- The provider request body built by `upload_video` (youtube_client.py lines
166-188): snippet, status and optional recording details. -/
structure RequestBody where
  snippet : Snippet
  privacyStatus : String
  selfDeclaredMadeForKids : Bool
  recordingDate : Option String
  deriving Repr, DecidableEq

/-- Shallow embedding of the body-construction step of
`YouTubeClient.upload_video` (youtube_client.py lines 166-188): every field
uses Python's `dict.get` default — in particular
`metadata.get('title', 'Untitled')`, which substitutes `"Untitled"` only when
the `title` key is absent.  The construction is total: no exception is raised
here for any title value. -/
def buildRequestBody (md : Metadata) : RequestBody :=
  { snippet :=
      { title := md.title.getD "Untitled",
        description := md.description.getD "",
        tags := md.tags.getD [],
        categoryId := md.category.getD "22",
        defaultAudioLanguage := get_language_code (md.video_language.getD "English") },
    privacyStatus := md.privacy_status.getD "private",
    selfDeclaredMadeForKids := false,
    recordingDate := md.recording_date }

/-- A metadata record whose title key is present but blank after trimming. -/
def blankTitleMetadata : Metadata :=
  { title := some "   ", description := none, tags := none, category := none,
    privacy_status := none, video_language := none, recording_date := none,
    thumbnail := none }

/-- C4 counterexample: for a metadata record whose title is present but blank
(empty after trimming), the built request body carries the blank string
itself, not the placeholder `"Untitled"` — `dict.get`'s default applies only
to an absent key. -/
theorem blank_title_not_defaulted_counterexample :
    "   ".toList.all Char.isWhitespace = true
    ∧ (buildRequestBody blankTitleMetadata).snippet.title = "   "
    ∧ (buildRequestBody blankTitleMetadata).snippet.title ≠ "Untitled" := by
  refine ⟨by decide, rfl, by decide⟩

/-- C4 amended: the `"Untitled"` placeholder is substituted only when the
title key is absent from the metadata record; a present title string — blank
or not — is passed through to the request body unchanged; and in either case
the body construction is total, so no validation failure is ever raised for a
blank title at this layer. -/
theorem title_default_only_when_absent (md : Metadata) :
    (md.title = none → (buildRequestBody md).snippet.title = "Untitled")
    ∧ (∀ s, md.title = some s → (buildRequestBody md).snippet.title = s) := by
  constructor
  · intro h; simp [buildRequestBody, h]
  · intro s h; simp [buildRequestBody, h]

/-- C4 amended witness: with the title key absent the body says `"Untitled"`;
with the present blank title it says `"   "`. -/
theorem title_default_only_when_absent_witness :
    (buildRequestBody
        { title := none, description := none, tags := none, category := none,
          privacy_status := none, video_language := none,
          recording_date := none, thumbnail := none }).snippet.title = "Untitled"
    ∧ (buildRequestBody blankTitleMetadata).snippet.title = "   " :=
  ⟨(title_default_only_when_absent
      { title := none, description := none, tags := none, category := none,
        privacy_status := none, video_language := none,
        recording_date := none, thumbnail := none }).1 rfl,
    (title_default_only_when_absent blankTitleMetadata).2 "   " rfl⟩

/-- Outcome of the provider's non-resumable `thumbnails().set(...)` call, an
external effect supplied to the embedding as data. -/
inductive ThumbSend where
  | sendOk
  | sendFail (e : PyExn)
  deriving Repr, DecidableEq

/-- Shallow embedding of `YouTubeClient._upload_thumbnail` (youtube_client.py
lines 386-439): validates the thumbnail file's existence, extension (image
types only) and size (2 MB ceiling, distinct from the video ceiling), then
performs the send; every failure — validation, `HttpError` or other — is
raised as an `UploadError`, modelled as `Except.error` with the wrapped
message. -/
def upload_thumbnail (tf : FSFile) (send : ThumbSend) : Except PyExn Unit :=
  if ¬ tf.pathExists then .error (.otherExn "Thumbnail file not found")
  else if ¬ (strToLower tf.suffix ∈ [".jpg", ".jpeg", ".png", ".webp"]) then
    .error (.otherExn "Unsupported thumbnail format")
  else if 2 * 1024 * 1024 < tf.size then
    .error (.otherExn "Thumbnail size exceeds limit")
  else
    match send with
    | .sendOk => .ok ()
    | .sendFail _ => .error (.otherExn "Failed to upload thumbnail")

/-- The failure side of `upload_video`: a `FileValidationError` propagating
from the validator, or the `UploadError` that the generic `except Exception`
handler (youtube_client.py lines 261-263) re-raises around whatever escaped
the upload call — in particular the engine's `NetworkError` is caught there
and re-wrapped.  No `HttpError` can escape to the `except HttpError` branch:
chunk-send exceptions are consumed inside `_execute_upload_with_retry`. -/
inductive UploadVideoErr where
  | fileValidation (f : FileValidationFail)
  | uploadErrorWrapped (e : EngineErr)
  deriving Repr, DecidableEq

/-- The success dictionary returned by `upload_video` (youtube_client.py lines
240-246). -/
structure UploadSuccessRecord where
  success : Bool
  video_id : String
  video_url : String
  title : String
  file_size : Nat
  deriving Repr, DecidableEq

/-- Shallow embedding of `YouTubeClient.upload_video` (youtube_client.py lines
138-263): validate the file, build the request body, drive the chunked upload
through `_execute_upload_with_retry`, then — if a thumbnail path is present in
the metadata — attempt the thumbnail upload inside its own `try`, whose
`except` only logs a warning (lines 233-238); finally return the success
record.  `file` is the local file at `file_path`, `script` the provider's
chunk-outcome stream, `tf`/`send` the thumbnail file's attributes and the
thumbnail send outcome.  The result is `none` when the script is too short to
drive the transfer to a terminal outcome. -/
def upload_video (cfg : RetryCfg) (file : FSFile) (md : Metadata)
    (script : List ChunkOutcome) (tf : FSFile) (send : ThumbSend) :
    Option (Except UploadVideoErr UploadSuccessRecord × List EngineEvent) :=
  match validate_video_file file with
  | .error v => some (.error (.fileValidation v), [])
  | .ok info =>
    match execute_upload_with_retry cfg info.file_size script with
    | none => none
    | some (.error e, evs) => some (.error (.uploadErrorWrapped e), evs)
    | some (.ok resp, evs) =>
      let record : UploadSuccessRecord :=
        { success := true, video_id := resp.id,
          video_url := "https://www.youtube.com/watch?v=" ++ resp.id,
          title := md.title.getD "Untitled", file_size := info.file_size }
      match md.thumbnail with
      | none => some (.ok record, evs)
      | some _ =>
        match upload_thumbnail tf send with
        | .ok _ => some (.ok record, evs)
        | .error _ => some (.ok record, evs)

/-- Helper: when every validator check passes, the returned descriptor is
determined by the file's attributes; in particular its `file_size` is the
file's byte size. -/
theorem validate_ok_file_size (file : FSFile) (info : FileInfo)
    (h : validate_video_file file = .ok info) : info.file_size = file.size := by
  rw [validate_video_file] at h
  by_cases h1 : file.pathExists
  · by_cases h2 : file.isFile
    · by_cases h3 : strToLower file.suffix ∈ config.SUPPORTED_VIDEO_FORMATS
      · by_cases h4 : file.size > config.MAX_FILE_SIZE
        · simp [h1, h2, h3, h4] at h
        · by_cases h5 : file.readable
          · simp [h1, h2, h3, h4, h5] at h
            rw [← h]
          · simp [h1, h2, h3, h4, h5] at h
      · simp [h1, h2, h3] at h
    · simp [h1, h2] at h
  · simp [h1] at h

/-- C9: for every upload whose primary video transfer succeeds and whose
metadata includes a thumbnail path, any failure during the thumbnail stage —
validation failure or send failure, i.e. any thumbnail file attributes and any
send outcome whatsoever — is caught, and the overall result is still the
success record carrying the video's remote identifier; a thumbnail failure
never converts the upload into a failure result. -/
theorem thumbnail_failure_isolated (cfg : RetryCfg) (file : FSFile)
    (md : Metadata) (script : List ChunkOutcome) (tf : FSFile)
    (send : ThumbSend) (info : FileInfo) (resp : UploadResponse)
    (evs : List EngineEvent) (p : String)
    (hval : validate_video_file file = .ok info)
    (heng : execute_upload_with_retry cfg file.size script = some (.ok resp, evs))
    (hth : md.thumbnail = some p) :
    upload_video cfg file md script tf send =
      some (.ok
        { success := true, video_id := resp.id,
          video_url := "https://www.youtube.com/watch?v=" ++ resp.id,
          title := md.title.getD "Untitled", file_size := file.size }, evs) := by
  have hsize := validate_ok_file_size file info hval
  rw [upload_video, hval]
  simp only [hsize, heng, hth]
  cases h : upload_thumbnail tf send with
  | ok u => simp [h]
  | error e => simp [h]

/-- C9 witness: a concrete valid file, a clean one-chunk transfer, a thumbnail
path present, and a thumbnail file that fails validation (oversized `.png`):
the result is still the success record with the video's identifier. -/
theorem thumbnail_failure_isolated_witness :
    upload_video config.retryCfg
        { pathExists := true, isFile := true, suffix := ".mp4", size := 7,
          readable := true, absolutePath := "/v/a.mp4", name := "a.mp4" }
        { title := some "My video", description := none, tags := none,
          category := none, privacy_status := none, video_language := none,
          recording_date := none, thumbnail := some "/v/t.png" }
        [.done ⟨"vidZ"⟩]
        { pathExists := true, isFile := true, suffix := ".png",
          size := 3 * 1024 * 1024, readable := true,
          absolutePath := "/v/t.png", name := "t.png" }
        .sendOk =
      some (.ok
        { success := true, video_id := "vidZ",
          video_url := "https://www.youtube.com/watch?v=" ++ "vidZ",
          title := (some "My video").getD "Untitled", file_size := 7 },
        [.returned]) :=
  thumbnail_failure_isolated config.retryCfg
    { pathExists := true, isFile := true, suffix := ".mp4", size := 7,
      readable := true, absolutePath := "/v/a.mp4", name := "a.mp4" }
    { title := some "My video", description := none, tags := none,
      category := none, privacy_status := none, video_language := none,
      recording_date := none, thumbnail := some "/v/t.png" }
    [.done ⟨"vidZ"⟩]
    { pathExists := true, isFile := true, suffix := ".png",
      size := 3 * 1024 * 1024, readable := true,
      absolutePath := "/v/t.png", name := "t.png" }
    .sendOk
    { valid := true, file_path := "/v/a.mp4", file_name := "a.mp4",
      file_size := 7, file_extension := ".mp4" }
    ⟨"vidZ"⟩ [.returned] "/v/t.png" rfl rfl rfl

/-- The google-auth `Credentials` record as the OAuth manager reads and writes
it (oauth_manager.py lines 102-163): access token, nullable refresh token,
token endpoint, client identifier and secret, scope list, nullable expiry.
Expiry timestamps are represented by the integral timestamp that the external
`datetime.isoformat` / `datetime.fromisoformat` pair round-trips. -/
structure PyCredentials where
  token : Option String
  refresh_token : Option String
  token_uri : String
  client_id : String
  client_secret : String
  scopes : List String
  expiry : Option Nat
  deriving Repr, DecidableEq

/-- The `token_data` dictionary serialized by `_save_credentials`
(oauth_manager.py lines 109-117): the seven credential fields, with the expiry
stored as its ISO string (`None` when absent).  ISO strings of real datetimes
are never empty, so Python's truthiness test on the stored expiry coincides
with presence. -/
structure TokenData where
  token : Option String
  refresh_token : Option String
  token_uri : String
  client_id : String
  client_secret : String
  scopes : List String
  expiry : Option Nat
  deriving Repr, DecidableEq

/-- The content of the persisted credential blob: a Fernet ciphertext sealed
under a symmetric key, or unrelated bytes (a truncated file, or a ciphertext
of a rotated key that no longer exists) which no key decrypts. -/
inductive EncryptedBlob where
  | sealedWith (key : Nat) (data : TokenData)
  | garbage
  deriving Repr, DecidableEq

/-- Fernet encryption of the serialized token dictionary
(`self.fernet.encrypt`, oauth_manager.py lines 76-87). -/
def fernetEncrypt (key : Nat) (d : TokenData) : EncryptedBlob := .sealedWith key d

/-- Fernet decryption (`self.fernet.decrypt`, oauth_manager.py lines 89-100):
succeeds exactly on a ciphertext sealed under the same key; `none` models the
`InvalidToken` exception raised on a wrong/rotated key or corrupted bytes. -/
def fernetDecrypt (key : Nat) : EncryptedBlob → Option TokenData
  | .sealedWith k d => if k = key then some d else none
  | .garbage => none

/-- The persistent state the OAuth manager's store methods touch: the token
file at `config.OAUTH_TOKEN_FILE` (`none` when the file does not exist) and
the manager's Fernet key from `_get_encryption_key`. -/
structure TokenStore where
  tokenFile : Option EncryptedBlob
  key : Nat
  deriving Repr, DecidableEq

/-- Shallow embedding of `OAuthManager._save_credentials` (oauth_manager.py
lines 102-127): serialize the seven fields, encrypt under the manager's key,
write the blob to the token file. -/
def save_credentials (st : TokenStore) (c : PyCredentials) : TokenStore :=
  { st with tokenFile := some (fernetEncrypt st.key
      { token := c.token, refresh_token := c.refresh_token,
        token_uri := c.token_uri, client_id := c.client_id,
        client_secret := c.client_secret, scopes := c.scopes,
        expiry := c.expiry }) }

/-- Shallow embedding of `OAuthManager._load_credentials` (oauth_manager.py
lines 129-163): return `None` when the token file does not exist; otherwise
decrypt and rebuild the `Credentials`, setting the expiry only when the stored
value is truthy; ANY exception — a failed decryption included — is caught by
the `except Exception` at line 161, logged, and turned into `None`. -/
def load_credentials (st : TokenStore) : Option PyCredentials :=
  match st.tokenFile with
  | none => none
  | some blob =>
    match fernetDecrypt st.key blob with
    | none => none
    | some d =>
      some { token := d.token, refresh_token := d.refresh_token,
             token_uri := d.token_uri, client_id := d.client_id,
             client_secret := d.client_secret, scopes := d.scopes,
             expiry := d.expiry }

/-- A store whose token file exists but holds bytes its key cannot decrypt. -/
def corruptStore : TokenStore := { tokenFile := some .garbage, key := 0 }

/-- A store whose token file does not exist. -/
def emptyStore : TokenStore := { tokenFile := none, key := 0 }

/-- C3 counterexample: when the token file exists but decryption fails, the
load operation does NOT signal a distinct `CorruptCredentialStore` failure —
it returns `None`, exactly the result it returns for a missing file, so the
caller cannot distinguish a corrupt store from an absent one. -/
theorem corrupt_store_returns_absent_counterexample :
    corruptStore.tokenFile ≠ none
    ∧ fernetDecrypt corruptStore.key EncryptedBlob.garbage = none
    ∧ load_credentials corruptStore = none
    ∧ load_credentials emptyStore = none := by
  refine ⟨by decide, rfl, rfl, rfl⟩

/-- C3 amended: `_load_credentials` returns absent (`None`), not an error,
when the persisted token file does not exist; and when the file exists but
decryption fails the exception is caught and logged and the result is again
absent (`None`) — decryption failure is not surfaced as a distinct
`CorruptCredentialStore` failure distinguishable from absence. -/
theorem load_credentials_absent_and_corrupt (st : TokenStore) :
    (st.tokenFile = none → load_credentials st = none)
    ∧ (∀ blob, st.tokenFile = some blob → fernetDecrypt st.key blob = none →
        load_credentials st = none) := by
  constructor
  · intro h; rw [load_credentials, h]
  · intro blob hb hd; simp only [load_credentials, hb, hd]

/-- C3 amended witness: the two branches at the concrete empty and corrupt
stores. -/
theorem load_credentials_absent_and_corrupt_witness :
    load_credentials emptyStore = none ∧ load_credentials corruptStore = none :=
  ⟨(load_credentials_absent_and_corrupt emptyStore).1 rfl,
    (load_credentials_absent_and_corrupt corruptStore).2 EncryptedBlob.garbage rfl rfl⟩

/-- C8: persisting a credential record and then retrieving it yields a record
equal in all seven fields (token, refresh_token, token_uri, client_id,
client_secret, scopes, expiry) to the original, for any record with a
populated refresh token and expiry. -/
theorem persist_retrieve_roundtrip (st : TokenStore) (c : PyCredentials)
    (r : String) (d : Nat)
    (hr : c.refresh_token = some r) (hd : c.expiry = some d) :
    load_credentials (save_credentials st c) = some c := by
  rw [save_credentials, load_credentials]
  simp [fernetEncrypt, fernetDecrypt]

/-- C8 witness: round trip of a concrete fully-populated record. -/
theorem persist_retrieve_roundtrip_witness :
    load_credentials (save_credentials emptyStore
      { token := some "acc", refresh_token := some "ref",
        token_uri := "https://oauth2.googleapis.com/token",
        client_id := "cid", client_secret := "sec",
        scopes := ["https://www.googleapis.com/auth/youtube.upload"],
        expiry := some 1700000000 }) =
      some
        { token := some "acc", refresh_token := some "ref",
          token_uri := "https://oauth2.googleapis.com/token",
          client_id := "cid", client_secret := "sec",
          scopes := ["https://www.googleapis.com/auth/youtube.upload"],
          expiry := some 1700000000 } :=
  persist_retrieve_roundtrip emptyStore
    { token := some "acc", refresh_token := some "ref",
      token_uri := "https://oauth2.googleapis.com/token",
      client_id := "cid", client_secret := "sec",
      scopes := ["https://www.googleapis.com/auth/youtube.upload"],
      expiry := some 1700000000 } "ref" 1700000000 rfl rfl

/-- The `AuthenticationError` of oauth_manager.py line 31, as raised by
`_refresh_credentials` and `authenticate`. -/
inductive AuthExn where
  | authenticationError (msg : String)
  deriving Repr, DecidableEq

/-- The external google-auth behaviour the manager consults, supplied as
data: `credentials.valid` and `credentials.expired` (library properties
computed from token presence and clock), the network outcome of
`credentials.refresh(Request())`, and the outcome of the interactive
`InstalledAppFlow.run_local_server` flow. -/
structure AuthEnv where
  validOf : PyCredentials → Bool
  expiredOf : PyCredentials → Bool
  refreshOf : PyCredentials → Except String PyCredentials
  flowOf : Except String PyCredentials

/-- The mutable state of an `OAuthManager` instance: the in-memory
`self.credentials` and the persisted store. -/
structure ManagerState where
  credentials : Option PyCredentials
  store : TokenStore

/-- Shallow embedding of `OAuthManager._refresh_credentials` (oauth_manager.py
lines 165-181): on success the refreshed credentials are returned; any
exception from the network call is wrapped in `AuthenticationError` and
re-raised. -/
def refresh_credentials (env : AuthEnv) (c : PyCredentials) :
    Except AuthExn PyCredentials :=
  match env.refreshOf c with
  | .ok c2 => .ok c2
  | .error msg => .error (.authenticationError ("Failed to refresh credentials: " ++ msg))

/-- The disk path of `get_credentials` (oauth_manager.py lines 258-273): load
from disk; if valid, cache and return; if expired with a refresh token, try to
refresh and persist — but the surrounding `try`/`except Exception: pass`
swallows ANY failure there, falling through to `return None`. -/
def get_credentials_disk (env : AuthEnv) (st : ManagerState) :
    Except AuthExn (Option PyCredentials × ManagerState) :=
  match load_credentials st.store with
  | none => .ok (none, st)
  | some c =>
    if env.validOf c then .ok (some c, { st with credentials := some c })
    else if env.expiredOf c && c.refresh_token.isSome then
      match refresh_credentials env c with
      | .ok c2 =>
        .ok (some c2,
          { credentials := some c2, store := save_credentials st.store c2 })
      | .error _ => .ok (none, st)
    else .ok (none, st)

/-- Shallow embedding of `OAuthManager.get_credentials` (oauth_manager.py
lines 248-273): return the cached in-memory credentials when valid, otherwise
fall back to the disk path.  The `Except` result type carries the exceptions
the method could propagate; the theorem for C10 shows it never does. -/
def get_credentials (env : AuthEnv) (st : ManagerState) :
    Except AuthExn (Option PyCredentials × ManagerState) :=
  match st.credentials with
  | some c =>
    if env.validOf c then .ok (some c, st) else get_credentials_disk env st
  | none => get_credentials_disk env st

/-- The interactive-grant tail of `authenticate` (oauth_manager.py lines
209-246): run the local-server flow; persist and cache on success, raise
`AuthenticationError` when the flow errors or is abandoned. -/
def authFlow (env : AuthEnv) (st : ManagerState) :
    Except AuthExn (PyCredentials × ManagerState) :=
  match env.flowOf with
  | .ok c =>
    .ok (c, { credentials := some c, store := save_credentials st.store c })
  | .error msg => .error (.authenticationError ("Authentication failed: " ++ msg))

/-- Shallow embedding of `OAuthManager.authenticate` (oauth_manager.py lines
183-246): valid stored credentials are returned as-is; expired-refreshable
ones are refreshed — the `_refresh_credentials` call sits OUTSIDE any
`try`, so its `AuthenticationError` propagates to the caller — then persisted;
otherwise the interactive flow runs. -/
def authenticate (env : AuthEnv) (st : ManagerState) :
    Except AuthExn (PyCredentials × ManagerState) :=
  match load_credentials st.store with
  | some c =>
    if env.validOf c then .ok (c, { st with credentials := some c })
    else if env.expiredOf c && c.refresh_token.isSome then
      match refresh_credentials env c with
      | .ok c2 =>
        .ok (c2, { credentials := some c2, store := save_credentials st.store c2 })
      | .error ex => .error ex
    else authFlow env st
  | none => authFlow env st

/-- Helper: the disk path of `get_credentials` never produces an exception. -/
theorem get_credentials_disk_ok (env : AuthEnv) (st : ManagerState) :
    ∃ out, get_credentials_disk env st = .ok out := by
  rw [get_credentials_disk]
  cases load_credentials st.store with
  | none => exact ⟨(none, st), rfl⟩
  | some c =>
    by_cases hv : env.validOf c
    · exact ⟨(some c, { st with credentials := some c }), by simp [hv]⟩
    · by_cases hr : env.expiredOf c && c.refresh_token.isSome
      · cases hrf : refresh_credentials env c with
        | ok c2 =>
          exact ⟨(some c2,
            { credentials := some c2, store := save_credentials st.store c2 }),
            by simp [hv, hr, hrf]⟩
        | error ex => exact ⟨(none, st), by simp [hv, hr, hrf]⟩
      · exact ⟨(none, st), by simp [hv, hr]⟩

/-- C10: `get_credentials` never raises — for every environment and every
manager state, including the case of a stored record that is expired with a
refresh token whose refresh operation fails, it returns `Except.ok`; in that
failing-refresh case it swallows the failure and yields `None` with the state
unchanged, whereas `authenticate` on the very same state propagates the
`AuthenticationError` from the failed refresh. -/
theorem get_credentials_never_raises (env : AuthEnv) (st : ManagerState) :
    (∃ out, get_credentials env st = .ok out)
    ∧ (∀ c msg, st.credentials = none → load_credentials st.store = some c →
        env.validOf c = false → env.expiredOf c = true →
        c.refresh_token.isSome = true → env.refreshOf c = .error msg →
        get_credentials env st = .ok (none, st)
        ∧ authenticate env st =
            .error (.authenticationError ("Failed to refresh credentials: " ++ msg))) := by
  constructor
  · rw [get_credentials]
    cases st.credentials with
    | none => exact get_credentials_disk_ok env st
    | some c =>
      by_cases hv : env.validOf c
      · exact ⟨(some c, st), by simp [hv]⟩
      · obtain ⟨out, hout⟩ := get_credentials_disk_ok env st
        exact ⟨out, by simp [hv, hout]⟩
  · intro c msg hmem hload hv hexp href hrf
    have hrefresh : refresh_credentials env c =
        .error (.authenticationError ("Failed to refresh credentials: " ++ msg)) := by
      rw [refresh_credentials, hrf]
    constructor
    · rw [get_credentials, hmem, get_credentials_disk, hload]
      simp [hv, hexp, href, hrefresh]
    · rw [authenticate, hload]
      simp [hv, hexp, href, hrefresh]

/-- C10 witness: a concrete environment whose refresh always fails and a
state holding only an on-disk expired record with a refresh token:
`get_credentials` returns `ok None`, `authenticate` raises. -/
theorem get_credentials_never_raises_witness :
    (get_credentials
        { validOf := fun _ => false, expiredOf := fun _ => true,
          refreshOf := fun _ => .error "boom", flowOf := .error "no flow" }
        { credentials := none,
          store := save_credentials emptyStore
            { token := some "acc", refresh_token := some "ref",
              token_uri := "u", client_id := "i", client_secret := "s",
              scopes := [], expiry := some 5 } } =
      .ok (none,
        { credentials := none,
          store := save_credentials emptyStore
            { token := some "acc", refresh_token := some "ref",
              token_uri := "u", client_id := "i", client_secret := "s",
              scopes := [], expiry := some 5 } }))
    ∧ authenticate
        { validOf := fun _ => false, expiredOf := fun _ => true,
          refreshOf := fun _ => .error "boom", flowOf := .error "no flow" }
        { credentials := none,
          store := save_credentials emptyStore
            { token := some "acc", refresh_token := some "ref",
              token_uri := "u", client_id := "i", client_secret := "s",
              scopes := [], expiry := some 5 } } =
      .error (.authenticationError ("Failed to refresh credentials: " ++ "boom")) :=
  (get_credentials_never_raises
      { validOf := fun _ => false, expiredOf := fun _ => true,
        refreshOf := fun _ => .error "boom", flowOf := .error "no flow" }
      { credentials := none,
        store := save_credentials emptyStore
          { token := some "acc", refresh_token := some "ref",
            token_uri := "u", client_id := "i", client_secret := "s",
            scopes := [], expiry := some 5 } }).2
    { token := some "acc", refresh_token := some "ref",
      token_uri := "u", client_id := "i", client_secret := "s",
      scopes := [], expiry := some 5 }
    "boom" rfl rfl rfl rfl rfl rfl
